import Mathlib

/-!
Verification of the IDS_System client-side session layer.

Shallow embedding of the two core source modules:

* `frontend/src/contexts/WebSocketContext.jsx` — the channel manager:
  `connect` / `disconnect` / `subscribe`, the `onopen` / `onclose` handlers
  attached to every created `WebSocket`, the 3-second reconnect timer, and
  message dispatch over the mutable handler set (`Set.forEach`).
* `frontend/src/pages/LiveMonitoring.jsx` — the control orchestrator and
  flow aggregator: `startMonitoring`, `stopMonitoring`, `changeInterface`,
  `checkSnifferStatus`, `refreshStats`, and the push subscription that
  prepends events to the bounded flow list and bumps the counters.

Remote calls are modelled by an oracle (`Env`) giving each request's
outcome; `await` boundaries are modelled where claims depend on
interleaving.  JavaScript `x || y` on numbers is modelled by `jsOrQ`
(zero and absent are falsy), and on object-like values by `jsOrOpt`
(absent is falsy).  `Array.prototype.sort` (stable, ES2019) with the
date comparator is modelled by Mathlib's stable `List.insertionSort`
with the strict comes-before relation derived from the comparator,
where a missing timestamp (`NaN` date) compares equal to everything.
-/

namespace IDS

/-! ## Channel manager state (WebSocketContext.jsx) -/

/-- `WebSocket.readyState`. -/
inductive RState where
  | connecting
  | opened
  | closing
  | closed
  deriving DecidableEq, Repr

/-- The provider's mutable refs and state: every socket ever created (the
`onopen` / `onclose` handlers stay attached to each), `wsRef.current`,
whether a reconnect timeout is pending, `isConnected`, and the handler set
(`messageHandlersRef.current`, a `Set`, kept as an insertion-ordered
duplicate-free list of handler ids). -/
structure ChanState where
  sockets : List (Nat × RState)
  wsRef : Option Nat
  timer : Bool
  isConnected : Bool
  handlers : List Nat
  nextId : Nat
  deriving DecidableEq, Repr

def ChanState.readyOf (st : ChanState) (id : Nat) : Option RState :=
  st.sockets.lookup id

def setReady (socks : List (Nat × RState)) (id : Nat) (r : RState) :
    List (Nat × RState) :=
  socks.map (fun p => if p.1 = id then (p.1, r) else p)

/-- `new WebSocket(...)`: a fresh socket in `CONNECTING`, stored in
`wsRef.current`. -/
def mkSocket (st : ChanState) : ChanState :=
  { st with
    sockets := st.sockets ++ [(st.nextId, RState.connecting)]
    wsRef := some st.nextId
    nextId := st.nextId + 1 }

/-- `connect()`: returns early when `wsRef.current` is non-null and its
`readyState` is `OPEN` or `CONNECTING`; otherwise creates a socket. -/
def connect (st : ChanState) : ChanState :=
  match st.wsRef with
  | some id =>
    match st.readyOf id with
    | some RState.opened => st
    | some RState.connecting => st
    | _ => mkSocket st
  | none => mkSocket st

/-- `disconnect()`: clear any pending reconnect timeout, `close()` the
current socket, null the ref, set `isConnected` false. -/
def disconnect (st : ChanState) : ChanState :=
  let st1 := { st with timer := false }
  match st1.wsRef with
  | some id =>
    { st1 with
      sockets := setReady st1.sockets id RState.closing
      wsRef := none
      isConnected := false }
  | none => { st1 with isConnected := false }

/-- The `onopen` handler of socket `id`: set `isConnected`, clear any
pending reconnect timeout. -/
def openEv (st : ChanState) (id : Nat) : ChanState :=
  if st.readyOf id = some RState.connecting then
    { st with
      sockets := setReady st.sockets id RState.opened
      isConnected := true
      timer := false }
  else st

/-- The `onclose` handler of socket `id` (it fires whether the close was
remote or came from `disconnect()`'s own `close()` call): set
`isConnected` false and schedule a reconnect after 3 seconds. -/
def closeEv (st : ChanState) (id : Nat) : ChanState :=
  match st.readyOf id with
  | some RState.closed => st
  | none => st
  | _ =>
    { st with
      sockets := setReady st.sockets id RState.closed
      isConnected := false
      timer := true }

/-- The reconnect timeout firing: it only runs when still scheduled, and
calls `connect()`. -/
def timerEv (st : ChanState) : ChanState :=
  if st.timer then connect { st with timer := false } else st

/-- `subscribe(handler)`: `Set.add` (no duplicates). -/
def subscribe (st : ChanState) (h : Nat) : ChanState :=
  { st with
    handlers := if h ∈ st.handlers then st.handlers else st.handlers ++ [h] }

/-- One event of the cooperative event loop seen by the provider. -/
inductive ChanEvent where
  | evConnect
  | evDisconnect
  | evOpen (id : Nat)
  | evClose (id : Nat)
  | evTimer
  | evSubscribe (h : Nat)
  deriving DecidableEq, Repr

def chanStep (st : ChanState) : ChanEvent → ChanState
  | ChanEvent.evConnect => connect st
  | ChanEvent.evDisconnect => disconnect st
  | ChanEvent.evOpen id => openEv st id
  | ChanEvent.evClose id => closeEv st id
  | ChanEvent.evTimer => timerEv st
  | ChanEvent.evSubscribe h => subscribe st h

def chanRun (st : ChanState) (es : List ChanEvent) : ChanState :=
  es.foldl chanStep st

def chanInit : ChanState :=
  { sockets := [], wsRef := none, timer := false, isConnected := false
    handlers := [], nextId := 0 }

/-! ## Message dispatch (the `onmessage` handler)

`ws.onmessage` iterates `messageHandlersRef.current` — the *live*
`Set` — with `forEach`.  Per the ECMAScript specification, `forEach`
visits entries in insertion order, an entry added during iteration is
visited, and an entry deleted before being visited is skipped.  A handler
reacts to a message by performing set operations (subscribe adds at the
end, unsubscribe deletes); `tbl h` gives the operations handler `h`
performs.  `dispatchLive` returns the list of handlers that receive the
in-flight message, fuelled because handlers may keep adding entries. -/

inductive SetOp where
  | add (n : Nat)
  | del (n : Nat)
  deriving DecidableEq, Repr

def applySetOp (s : List Nat) : SetOp → List Nat
  | SetOp.add n => if n ∈ s then s else s ++ [n]
  | SetOp.del n => s.erase n

def runOps (tbl : Nat → List SetOp) (h : Nat) (s : List Nat) : List Nat :=
  (tbl h).foldl applySetOp s

def firstUnvisited (visited s : List Nat) : Option Nat :=
  s.find? (fun x => decide (x ∉ visited))

def dispatchLive (tbl : Nat → List SetOp) :
    Nat → List Nat → List Nat → List Nat
  | 0, _, _ => []
  | fuel + 1, visited, s =>
    match firstUnvisited visited s with
    | none => []
    | some h => h :: dispatchLive tbl fuel (visited ++ [h]) (runOps tbl h s)

/-- A table of handlers that perform no subscription changes. -/
def emptyTbl : Nat → List SetOp := fun _ => []

theorem find?_eq_head?_filter (p : Nat → Bool) (s : List Nat) :
    s.find? p = (s.filter p).head? := by
  induction s with
  | nil => rfl
  | cons x xs ih =>
    by_cases h : p x
    · rw [List.find?_cons_of_pos _ h, List.filter_cons_of_pos h]
      rfl
    · rw [List.find?_cons_of_neg _ h, List.filter_cons_of_neg h, ih]

theorem runOps_emptyTbl (h : Nat) (s : List Nat) :
    runOps emptyTbl h s = s := rfl

/-- Live dispatch by handlers that do not touch the subscriber set delivers
to exactly the not-yet-visited subscribers, in order. -/
theorem dispatchLive_emptyTbl :
    ∀ (fuel : Nat) (visited s : List Nat), s.Nodup →
      (s.filter (fun x => decide (x ∉ visited))).length ≤ fuel →
      dispatchLive emptyTbl fuel visited s =
        s.filter (fun x => decide (x ∉ visited)) := by
  intro fuel
  induction fuel with
  | zero =>
    intro visited s _ hlen
    have h0 : s.filter (fun x => decide (x ∉ visited)) = [] :=
      List.length_eq_zero.mp (Nat.le_zero.mp hlen)
    rw [h0]
    rfl
  | succ n ih =>
    intro visited s hnd hlen
    rcases hfil : s.filter (fun x => decide (x ∉ visited)) with _ | ⟨h, t⟩
    · have hfind : firstUnvisited visited s = none := by
        rw [firstUnvisited, find?_eq_head?_filter, hfil]
        rfl
      simp only [dispatchLive, hfind]
    · have hfind : firstUnvisited visited s = some h := by
        rw [firstUnvisited, find?_eq_head?_filter, hfil]
        rfl
      have hnodupf : (s.filter (fun x => decide (x ∉ visited))).Nodup :=
        hnd.filter _
      rw [hfil] at hnodupf
      have hnotmem : h ∉ t := (List.nodup_cons.mp hnodupf).1
      have hnext :
          s.filter (fun x => decide (x ∉ visited ++ [h])) = t := by
        have hsplit :
            (fun x => decide (x ∉ visited ++ [h])) =
              fun x => decide (x ≠ h) && decide (x ∉ visited) := by
          funext x
          by_cases h1 : x ∈ visited <;> by_cases h2 : x = h <;>
            simp [h1, h2, List.mem_append]
        rw [hsplit, ← List.filter_filter, hfil,
          List.filter_cons_of_neg (by simp)]
        exact List.filter_eq_self.mpr fun a ha => by
          simp [ne_of_mem_of_not_mem ha hnotmem]
      have hlen2 :
          (s.filter (fun x => decide (x ∉ visited ++ [h]))).length ≤ n := by
        rw [hnext]
        rw [hfil] at hlen
        simpa using hlen
      simp only [dispatchLive, hfind, runOps_emptyTbl]
      rw [ih (visited ++ [h]) s hnd hlen2, hnext]

/-! ## Claim C3: dispatch and concurrent (un)subscription -/

/-- The claim as stated: delivery of an in-flight message is the subscriber
set at dispatch start, whatever subscription changes the handlers make
while the message is being dispatched. -/
def DispatchSnapshotClaim : Prop :=
  ∀ (tbl : Nat → List SetOp) (s : List Nat) (fuel : Nat),
    s.Nodup → s.length ≤ fuel → dispatchLive tbl fuel [] s = s

/-- Handler 1 unsubscribes handler 2 when it receives a message. -/
def tblDel : Nat → List SetOp := fun h => if h = 1 then [SetOp.del 2] else []

/-- C3 counterexample: with subscribers `[1, 2]`, handler 1 unsubscribing
handler 2 during dispatch removes handler 2 from the in-flight delivery —
the code iterates the live set, not a snapshot. -/
theorem dispatch_not_snapshot : ¬ DispatchSnapshotClaim := by
  intro hcl
  have h2 := hcl tblDel [1, 2] 2 (by decide) (by decide)
  have hev : dispatchLive tblDel 2 [] [1, 2] = [1] := by decide
  rw [hev] at h2
  exact absurd h2 (by decide)

/-- Handler 1 subscribes a new handler 3 when it receives a message. -/
def tblAdd : Nat → List SetOp := fun h => if h = 1 then [SetOp.add 3] else []

/-- C3 (amended): dispatch iterates the live subscriber set.  When no
handler changes subscriptions during dispatch, every subscriber receives
the in-flight message exactly once in order; but an unsubscribe performed
by a handler removes a not-yet-visited subscriber from that same delivery
(subscribers `[1, 2]`, handler 1 unsubscribing handler 2 yields delivery
to handler 1 only), and a handler subscribed during dispatch does receive
the in-flight message. -/
theorem dispatch_live_semantics (s : List Nat) (fuel : Nat)
    (hnd : s.Nodup) (hfuel : s.length ≤ fuel) :
    dispatchLive emptyTbl fuel [] s = s ∧
      dispatchLive tblDel 2 [] [1, 2] = [1] ∧
      dispatchLive tblAdd 3 [] [1, 2] = [1, 2, 3] := by
  refine ⟨?_, by decide, by decide⟩
  have := dispatchLive_emptyTbl fuel [] s hnd (by simpa using hfuel)
  simpa using this

theorem dispatch_live_semantics_witness :
    dispatchLive emptyTbl 3 [] [4, 7, 2] = [4, 7, 2] ∧
      dispatchLive tblDel 2 [] [1, 2] = [1] ∧
      dispatchLive tblAdd 3 [] [1, 2] = [1, 2, 3] :=
  dispatch_live_semantics [4, 7, 2] 3 (by decide) (by decide)

/-! ## Claim C2: reconnection after `disconnect()` -/

/-- The failing scenario: connect, the socket opens, `disconnect()` is
called, then the transport close event (triggered by `disconnect`'s own
`close()`) is delivered, then the 3-second timeout elapses. -/
def disconnectTrace : List ChanEvent :=
  [ChanEvent.evConnect, ChanEvent.evOpen 0, ChanEvent.evDisconnect,
    ChanEvent.evClose 0, ChanEvent.evTimer]

/-- C2 fails on the code: `disconnect()` cancels the pending timer and
closes the socket, but the socket's `onclose` handler still fires for
that close, schedules a fresh 3-second reconnect, and the timeout then
calls `connect()`, which finds `wsRef.current` null and creates a second
transport.  After the trace the state holds a brand-new `CONNECTING`
socket. -/
theorem disconnect_then_reconnect :
    (chanRun chanInit disconnectTrace).sockets =
        [(0, RState.closed), (1, RState.connecting)] ∧
      (chanRun chanInit disconnectTrace).wsRef = some 1 ∧
      (chanRun chanInit disconnectTrace).nextId = 2 ∧
      chanRun chanInit (disconnectTrace.take 3) =
        { sockets := [(0, RState.closing)], wsRef := none, timer := false
          isConnected := false, handlers := [], nextId := 1 } := by
  decide

/-! ## Claim C9: `connect()` idempotence and exactly-once delivery -/

/-- Delivery of one inbound message: the `onmessage` handler runs
`forEach` over the handler set; with handlers that do not mutate the set
during dispatch, the delivery list is `dispatchLive emptyTbl` over the
current handlers. -/
def deliverMsg (st : ChanState) : List Nat :=
  dispatchLive emptyTbl st.handlers.length [] st.handlers

/-- C9: calling `connect()` while the current socket is `CONNECTING` or
`OPEN` is a no-op — the state (hence the socket list) is unchanged, no
second transport is created — and a single inbound message is then
delivered to each subscriber exactly once. -/
theorem connect_idempotent_once (st : ChanState) (id h : Nat)
    (href : st.wsRef = some id)
    (hready : st.readyOf id = some RState.opened ∨
      st.readyOf id = some RState.connecting)
    (hnd : st.handlers.Nodup) (hmem : h ∈ st.handlers) :
    connect st = st ∧ (deliverMsg (connect st)).count h = 1 := by
  have hconn : connect st = st := by
    rcases hready with h1 | h1 <;> simp [connect, href, h1]
  refine ⟨hconn, ?_⟩
  rw [hconn]
  have hdeliver : deliverMsg st = st.handlers := by
    rw [deliverMsg]
    have := dispatchLive_emptyTbl st.handlers.length [] st.handlers hnd
      (by simp)
    simpa using this
  rw [hdeliver]
  exact List.count_eq_one_of_mem hnd hmem

/-- Concrete run for C9: after a `connect` and one `subscribe`, the socket
is `CONNECTING`; a second `connect()` changes nothing and handler 5
receives a message exactly once. -/
theorem connect_idempotent_once_witness :
    connect (chanRun chanInit
        [ChanEvent.evConnect, ChanEvent.evSubscribe 5]) =
      chanRun chanInit [ChanEvent.evConnect, ChanEvent.evSubscribe 5] ∧
    (deliverMsg (connect (chanRun chanInit
        [ChanEvent.evConnect, ChanEvent.evSubscribe 5]))).count 5 = 1 :=
  connect_idempotent_once _ 0 5 (by decide) (Or.inr (by decide))
    (by decide) (by decide)

/-! ## LiveMonitoring data model (LiveMonitoring.jsx)

Numbers carried by events are rationals; `x || y` on a number field is
`jsOrQ` (absent and `0` are falsy), on an object-like field `jsOrOpt`
(absent is falsy).  A date value is a `Nat` timestamp; an absent date
gives a `NaN` comparison, i.e. the comparator treats it as equal. -/

/-- A pushed WebSocket message (one flow event). -/
structure PushData where
  timestamp : Option Nat
  src_ip : String
  src_port : Nat
  dst_ip : String
  dst_port : Nat
  protocol : Option String
  is_attack : Bool
  attack_type : Option String
  severity : Option String
  confidence : Option ℚ
  binary_confidence : Option ℚ
  deriving DecidableEq, Repr

/-- A record of `/predictions/history`. -/
structure HRecord where
  rid : Nat
  created_at : Option Nat
  timestamp : Option Nat
  src_ip : String
  src_port : Nat
  dst_ip : String
  dst_port : Nat
  protocol : Option String
  is_attack : Bool
  attack_type : Option String
  severity : Option String
  confidence : Option ℚ
  binary_confidence : Option ℚ
  deriving DecidableEq, Repr

/-- An entry of the `flows` state.  A pushed entry keeps the message's
`binary_confidence` (object spread); a history entry has none. -/
structure Flow where
  timestamp : Option Nat
  src_ip : String
  src_port : Nat
  dst_ip : String
  dst_port : Nat
  protocol : Option String
  is_attack : Bool
  attack_type : Option String
  severity : Option String
  confidence : ℚ
  binary_confidence : Option ℚ
  deriving DecidableEq, Repr

/-- JavaScript `a || d` on numbers: `0` and absent are falsy. -/
def jsOrQ (a : Option ℚ) (d : ℚ) : ℚ :=
  match a with
  | some v => if v = 0 then d else v
  | none => d

/-- JavaScript truthiness of an optional number. -/
def jsTruthy (a : Option ℚ) : Bool :=
  match a with
  | some v => decide (v ≠ 0)
  | none => false

/-- JavaScript `a || b` on values that are truthy whenever present
(date strings). -/
def jsOrOpt (a b : Option Nat) : Option Nat :=
  match a with
  | some v => some v
  | none => b

/-- Push handler, line 23: `data.confidence || data.binary_confidence || 0`. -/
def normConfPush (d : PushData) : ℚ :=
  jsOrQ d.confidence (jsOrQ d.binary_confidence 0)

/-- Push handler, lines 21–24: `{...data, confidence: ...}`. -/
def pushFlow (d : PushData) : Flow :=
  { timestamp := d.timestamp, src_ip := d.src_ip, src_port := d.src_port
    dst_ip := d.dst_ip, dst_port := d.dst_port, protocol := d.protocol
    is_attack := d.is_attack, attack_type := d.attack_type
    severity := d.severity, confidence := normConfPush d
    binary_confidence := d.binary_confidence }

/-- `refreshStats`, lines 188–199: map a history record to flow shape;
`timestamp: h.created_at || h.timestamp`,
`confidence: h.binary_confidence || h.confidence || 0`. -/
def toFlow (h : HRecord) : Flow :=
  { timestamp := jsOrOpt h.created_at h.timestamp, src_ip := h.src_ip
    src_port := h.src_port, dst_ip := h.dst_ip, dst_port := h.dst_port
    protocol := h.protocol, is_attack := h.is_attack
    attack_type := h.attack_type, severity := h.severity
    confidence := jsOrQ h.binary_confidence (jsOrQ h.confidence 0)
    binary_confidence := none }

/-- The date the sort comparator reads from a mapped flow:
`b.timestamp || b.created_at` — a mapped flow has no `created_at`. -/
def dv (f : Flow) : Option Nat := f.timestamp

/-- `a` strictly later than `b`; with a missing date the comparator value
is `NaN`, which the sort treats as "equal", hence `false`. -/
def dvGt (a b : Flow) : Bool :=
  match dv a, dv b with
  | some x, some y => decide (y < x)
  | _, _ => false

/-- `a` must come strictly before `b` in the descending sort. -/
def laterThan (a b : Flow) : Prop := dvGt a b = true

instance : DecidableRel laterThan :=
  fun a b => inferInstanceAs (Decidable (dvGt a b = true))

/-- `flowsFromHistory.sort((a, b) => new Date(b.timestamp || b.created_at)
- new Date(a.timestamp || a.created_at))` — a stable sort moving an
element before another exactly when its date is strictly later. -/
def sortDesc (l : List Flow) : List Flow :=
  List.insertionSort laterThan l

/-- The two counters, line 9. -/
structure Stats where
  total : Nat
  attacks : Nat
  deriving DecidableEq, Repr

/-- `interfaceInfo` state, lines 54–59. -/
structure IfaceInfo where
  iface : Option String
  available : List String
  ifaceExists : Bool
  active_flows : Nat
  deriving DecidableEq, Repr

/-- `snifferStats` state, line 60. -/
structure SnifferStats where
  packet_count : Nat
  processed_count : Nat
  last_error : Option String
  deriving DecidableEq, Repr

/-- The component's state: `flows`, `stats`, `isMonitoring`,
`selectedInterface`, `interfaceInfo`, `snifferStats`, the WebSocket
connection flag read from the context, and the `alert(...)` messages
surfaced so far. -/
structure LMState where
  flows : List Flow
  stats : Stats
  isMonitoring : Bool
  selectedInterface : String
  interfaceInfo : Option IfaceInfo
  snifferStats : Option SnifferStats
  wsConnected : Bool
  alerts : List String
  deriving DecidableEq, Repr

def initLM : LMState :=
  { flows := [], stats := { total := 0, attacks := 0 }, isMonitoring := false
    selectedInterface := "", interfaceInfo := none, snifferStats := none
    wsConnected := false, alerts := [] }

/-- Outcome of a remote call. -/
inductive ApiResult (α : Type) where
  | ok (val : α)
  | err (detail : String)
  deriving DecidableEq, Repr

/-- `/health/sniffer/start` response body. -/
structure StartResp where
  status : String
  message : Option String
  deriving DecidableEq, Repr

/-- `/health` response body. -/
structure Health where
  sniffer_running : Bool
  iface : Option String
  available_interfaces : List String
  interface_exists : Bool
  active_flows : Nat
  sniffer_stats : SnifferStats
  deriving DecidableEq, Repr

/-- Oracle giving each remote call's outcome during one operation. -/
structure Env where
  historyResp : ApiResult (List HRecord)
  startResp : ApiResult StartResp
  stopResp : ApiResult Unit
  setIfaceResp : ApiResult Unit
  healthResp : ApiResult Health
  deriving Repr

/-- Externally visible requests an operation makes, in issue order. -/
inductive Act where
  | historyFetch
  | remoteStart
  | remoteStop
  | remoteSetIface (name : String)
  | healthPoll
  | wsConnect
  deriving DecidableEq, Repr

def Act.isControl : Act → Bool
  | Act.remoteStart => true
  | Act.remoteStop => true
  | Act.remoteSetIface _ => true
  | _ => false

def controlActs (t : List Act) : List Act := t.filter Act.isControl

/-! ## Flow aggregation -/

/-- The push subscription handler, lines 17–36: normalize confidence,
prepend, keep the first 200, bump `total` and — when `is_attack` —
`attacks`. -/
def applyPush (st : LMState) (d : PushData) : LMState :=
  { st with
    flows := (pushFlow d :: st.flows).take 200
    stats :=
      { total := st.stats.total + 1
        attacks := st.stats.attacks + (if d.is_attack then 1 else 0) } }

/-- `refreshStats`'s state change for a fetched history, lines 178–201:
stats recomputed wholesale from the records, flows replaced by the mapped
records sorted descending by date and truncated to 200. -/
def applySnapshot (recs : List HRecord) (st : LMState) : LMState :=
  { st with
    stats :=
      { total := recs.length
        attacks := (recs.filter (fun h => h.is_attack)).length }
    flows := (sortDesc (recs.map toFlow)).take 200 }

/-- `refreshStats`, lines 172–205: fetch `/predictions/history?limit=1000`;
on failure only log. -/
def refreshStats (env : Env) (st : LMState) : LMState × List Act :=
  match env.historyResp with
  | ApiResult.ok recs => (applySnapshot recs st, [Act.historyFetch])
  | ApiResult.err _ => (st, [Act.historyFetch])

/-- `checkSnifferStatus`, lines 49–69: poll `/health`, mirror the reported
running flag and interface info into state, fill `selectedInterface` when
still empty, return the running flag; on failure only log and return
`false`. -/
def checkSnifferStatus (env : Env) (st : LMState) : LMState × Bool × List Act :=
  match env.healthResp with
  | ApiResult.ok h =>
    ({ st with
        isMonitoring := h.sniffer_running
        interfaceInfo := some
          { iface := h.iface, available := h.available_interfaces
            ifaceExists := h.interface_exists
            active_flows := h.active_flows }
        snifferStats := some h.sniffer_stats
        selectedInterface :=
          if st.selectedInterface = "" then
            match h.iface with
            | some i => i
            | none => st.selectedInterface
          else st.selectedInterface },
      h.sniffer_running, [Act.healthPoll])
  | ApiResult.err _ => (st, false, [Act.healthPoll])

def startFailAlert (d : String) : String :=
  "Failed to start monitoring: " ++ d

def startWarnAlert (r : StartResp) : String :=
  "Warning: " ++ r.message.getD "Sniffer failed to start"

/-- `startMonitoring`, lines 88–125: refresh stats, post the start action,
wait, poll the actual status, and reconcile:
`started` and actually running → monitoring on (connect the WebSocket if
needed, refresh stats again); a `warning`/`failed` response or a poll
that says not running → monitoring off plus an alert; anything else
(e.g. already running) → mirror the polled status.  A thrown error →
monitoring off plus an alert. -/
def startMonitoring (env : Env) (st : LMState) : LMState × List Act :=
  let r1 := refreshStats env st
  match env.startResp with
  | ApiResult.err d =>
    ({ r1.1 with
        isMonitoring := false
        alerts := r1.1.alerts ++ [startFailAlert d] },
      r1.2 ++ [Act.remoteStart])
  | ApiResult.ok resp =>
    let r2 := checkSnifferStatus env r1.1
    let st2 := r2.1
    let actual := r2.2.1
    if resp.status = "started" ∧ actual = true then
      let st3 := { st2 with isMonitoring := true }
      let r3 :=
        if st3.wsConnected then (st3, ([] : List Act))
        else ({ st3 with wsConnected := true }, [Act.wsConnect])
      let r4 := refreshStats env r3.1
      (r4.1, r1.2 ++ [Act.remoteStart] ++ r2.2.2 ++ r3.2 ++ r4.2)
    else if resp.status = "warning" ∨ resp.status = "failed" ∨
        actual = false then
      ({ st2 with
          isMonitoring := false
          alerts := st2.alerts ++ [startWarnAlert resp] },
        r1.2 ++ [Act.remoteStart] ++ r2.2.2)
    else
      let st3 := { st2 with isMonitoring := actual }
      let r3 :=
        if actual = true ∧ st3.wsConnected = false then
          ({ st3 with wsConnected := true }, [Act.wsConnect])
        else (st3, ([] : List Act))
      (r3.1, r1.2 ++ [Act.remoteStart] ++ r2.2.2 ++ r3.2)

/-- `stopMonitoring`, lines 127–138: post the stop action; only when it
succeeds set monitoring off; on failure alert and change nothing else. -/
def stopMonitoring (env : Env) (st : LMState) : LMState × List Act :=
  match env.stopResp with
  | ApiResult.ok _ => ({ st with isMonitoring := false }, [Act.remoteStop])
  | ApiResult.err d =>
    ({ st with alerts := st.alerts ++ ["Failed to stop monitoring: " ++ d] },
      [Act.remoteStop])

/-- `changeInterface`, lines 140–170: no-op for an empty or unchanged
name; otherwise stop when monitoring, post the interface change, record
the new name, restart when it was monitoring, and alert the result; a
failed interface change aborts (no restart, name unchanged). -/
def changeInterface (env : Env) (st : LMState) (name : String) :
    LMState × List Act :=
  if name = "" ∨ name = st.selectedInterface then (st, [])
  else
    let was := st.isMonitoring
    let r1 := if was then stopMonitoring env st else (st, [])
    match env.setIfaceResp with
    | ApiResult.err d =>
      ({ r1.1 with
         alerts := r1.1.alerts ++ ["Failed to change interface: " ++ d] },
        r1.2 ++ [Act.remoteSetIface name])
    | ApiResult.ok _ =>
      let st2 := { r1.1 with selectedInterface := name }
      let r3 := if was then startMonitoring env st2 else (st2, [])
      ({ r3.1 with
         alerts := r3.1.alerts ++ ["Interface changed to " ++ name] },
        r1.2 ++ [Act.remoteSetIface name] ++ r3.2)

/-! ## Properties of the descending stable sort -/

/-- `a` may come (weakly) after `b` in the descending order: `b` is not
strictly later than `a`. -/
def sortedR (a b : Flow) : Prop := dvGt b a = false

theorem dvGt_asymm {a b : Flow} (h : dvGt a b = true) : dvGt b a = false := by
  rcases ha : dv a with _ | x <;> rcases hb : dv b with _ | y <;>
    simp [dvGt, ha, hb] at h ⊢ <;> omega

theorem dvGt_cross {x y z : Flow} (h1 : dvGt x y = true)
    (h2 : dvGt z y = false) : dvGt z x = false := by
  rcases hx : dv x with _ | a <;> rcases hy : dv y with _ | b <;>
    rcases hz : dv z with _ | c <;> simp [dvGt, hx, hy, hz] at h1 h2 ⊢ <;>
    omega

theorem pairwise_orderedInsert (x : Flow) (l : List Flow)
    (hp : l.Pairwise sortedR) :
    (List.orderedInsert laterThan x l).Pairwise sortedR := by
  induction l with
  | nil => simp [List.orderedInsert, sortedR]
  | cons y ys ih =>
    rw [List.orderedInsert]
    obtain ⟨hy, hys⟩ := List.pairwise_cons.mp hp
    by_cases hxy : laterThan x y
    · rw [if_pos hxy]
      refine List.pairwise_cons.mpr ⟨?_, hp⟩
      intro z hz
      rcases List.mem_cons.mp hz with rfl | hz2
      · exact dvGt_asymm hxy
      · exact dvGt_cross hxy (hy z hz2)
    · rw [if_neg hxy]
      refine List.pairwise_cons.mpr ⟨?_, ih hys⟩
      intro z hz
      rcases (List.mem_orderedInsert laterThan).mp hz with rfl | hz2
      · have : dvGt z y = false := by
          rcases hb : dvGt z y with _ | _
          · rfl
          · exact absurd hb hxy
        exact this
      · exact hy z hz2

theorem pairwise_sortDesc (l : List Flow) : (sortDesc l).Pairwise sortedR := by
  induction l with
  | nil => simp [sortDesc, List.insertionSort]
  | cons x xs ih => exact pairwise_orderedInsert x _ ih

/-! ## Claim C6: the bounded push window -/

def applyPushes (st : LMState) (es : List PushData) : LMState :=
  es.foldl applyPush st

theorem take_append_take {α : Type} (A B : List α) (n : Nat) :
    (A ++ B.take n).take n = (A ++ B).take n := by
  rw [List.take_append_eq_append_take, List.take_append_eq_append_take,
    List.take_take, Nat.min_eq_left (Nat.sub_le n A.length)]

theorem applyPushes_flows (es : List PushData) :
    ∀ st : LMState, st.flows.length ≤ 200 →
      (applyPushes st es).flows =
        (es.reverse.map pushFlow ++ st.flows).take 200 := by
  induction es with
  | nil =>
    intro st h
    simp only [applyPushes, List.foldl_nil, List.reverse_nil, List.map_nil,
      List.nil_append]
    exact (List.take_of_length_le h).symm
  | cons e es ih =>
    intro st h
    have hstep : applyPushes st (e :: es) = applyPushes (applyPush st e) es :=
      rfl
    have hlen : (applyPush st e).flows.length ≤ 200 := by
      simp only [applyPush]
      exact List.length_take_le _ _
    rw [hstep, ih (applyPush st e) hlen]
    show (es.reverse.map pushFlow ++
        (pushFlow e :: st.flows).take 200).take 200 = _
    rw [take_append_take]
    congr 1
    simp [List.reverse_cons, List.map_append, List.append_assoc]

/-- C6: a push normalizes confidence by the falsy-fallback chain
(explicit confidence, then binary confidence, then `0`), prepends the
mapped event and truncates to 200, bumps `total` by one and `attacks` by
one exactly when `is_attack` holds; and after more than 200 pushes the
flow view is exactly the last 200 pushed events, most recent first. -/
theorem applyPush_window_and_stats :
    (∀ d : PushData, jsTruthy d.confidence = true →
        (pushFlow d).confidence = d.confidence.getD 0) ∧
    (∀ d : PushData, jsTruthy d.confidence = false →
        jsTruthy d.binary_confidence = true →
        (pushFlow d).confidence = d.binary_confidence.getD 0) ∧
    (∀ d : PushData, jsTruthy d.confidence = false →
        jsTruthy d.binary_confidence = false →
        (pushFlow d).confidence = 0) ∧
    (∀ (st : LMState) (d : PushData),
        (applyPush st d).flows = (pushFlow d :: st.flows).take 200 ∧
        (applyPush st d).stats.total = st.stats.total + 1 ∧
        (applyPush st d).stats.attacks =
          st.stats.attacks + (if d.is_attack then 1 else 0)) ∧
    (∀ es : List PushData, 200 < es.length →
        (applyPushes initLM es).flows.length = 200 ∧
        (applyPushes initLM es).flows =
          ((es.drop (es.length - 200)).map pushFlow).reverse) := by
  refine ⟨?_, ?_, ?_, ?_, ?_⟩
  · intro d hd
    rcases hc : d.confidence with _ | v <;>
      simp [jsTruthy, hc] at hd ⊢ <;>
      simp [pushFlow, normConfPush, jsOrQ, hc, hd]
  · intro d hd hb
    rcases hc : d.confidence with _ | v <;>
      rcases hbc : d.binary_confidence with _ | w <;>
      simp [jsTruthy, hc, hbc] at hd hb ⊢ <;>
      simp [pushFlow, normConfPush, jsOrQ, hc, hbc, hd, hb]
  · intro d hd hb
    rcases hc : d.confidence with _ | v <;>
      rcases hbc : d.binary_confidence with _ | w <;>
      simp [jsTruthy, hc, hbc] at hd hb ⊢ <;>
      simp [pushFlow, normConfPush, jsOrQ, hc, hbc, hd, hb]
  · intro st d
    exact ⟨rfl, rfl, rfl⟩
  · intro es hlen
    have hnil : initLM.flows = [] := rfl
    have hflows := applyPushes_flows es initLM (by rw [hnil]; simp)
    rw [hnil, List.append_nil] at hflows
    constructor
    · rw [hflows]
      simp only [List.length_take, List.length_map, List.length_reverse]
      omega
    · rw [hflows, ← List.map_take, List.take_reverse, List.map_reverse]

def dConf : PushData :=
  { timestamp := none, src_ip := "10.0.0.1", src_port := 1
    dst_ip := "10.0.0.2", dst_port := 2, protocol := none, is_attack := true
    attack_type := some "Port Scan", severity := some "high"
    confidence := some 1, binary_confidence := some (3/4) }

theorem applyPush_window_and_stats_witness :
    (pushFlow dConf).confidence = dConf.confidence.getD 0 ∧
      (applyPushes initLM (List.replicate 201 dConf)).flows.length = 200 :=
  ⟨applyPush_window_and_stats.1 dConf (by decide),
    (applyPush_window_and_stats.2.2.2.2 (List.replicate 201 dConf)
      (by rw [List.length_replicate]; omega)).1⟩

/-! ## Claim C7: snapshot application is an idempotent full replace -/

/-- C7: applying the same snapshot twice equals applying it once; the
resulting view and counters do not depend on the prior state; the
counters are recomputed wholesale from the records; and the view is a
descending-sorted selection of the mapped records of length
`min 200 recs.length`. -/
theorem applySnapshot_idempotent_replace (st st2 : LMState)
    (recs : List HRecord) :
    applySnapshot recs (applySnapshot recs st) = applySnapshot recs st ∧
    (applySnapshot recs st).flows = (applySnapshot recs st2).flows ∧
    (applySnapshot recs st).stats = (applySnapshot recs st2).stats ∧
    (applySnapshot recs st).stats.total = recs.length ∧
    (applySnapshot recs st).stats.attacks =
      (recs.filter (fun h => h.is_attack)).length ∧
    (applySnapshot recs st).flows.length = min 200 recs.length ∧
    (applySnapshot recs st).flows.Pairwise sortedR ∧
    ∀ f ∈ (applySnapshot recs st).flows, f ∈ recs.map toFlow := by
  refine ⟨rfl, rfl, rfl, rfl, rfl, ?_, ?_, ?_⟩
  · simp only [applySnapshot, List.length_take, sortDesc,
      List.length_insertionSort, List.length_map]
  · exact List.Pairwise.sublist (List.take_sublist _ _)
      (pairwise_sortDesc (recs.map toFlow))
  · intro f hf
    have h1 : f ∈ sortDesc (recs.map toFlow) :=
      List.take_subset _ _ hf
    exact (List.perm_insertionSort laterThan (recs.map toFlow)).subset h1

def hRec : HRecord :=
  { rid := 7, created_at := some 5, timestamp := none, src_ip := "10.0.0.3"
    src_port := 3, dst_ip := "10.0.0.4", dst_port := 4, protocol := some "TCP"
    is_attack := false, attack_type := none, severity := none
    confidence := some 1, binary_confidence := none }

theorem applySnapshot_idempotent_replace_witness :
    toFlow hRec ∈ [hRec].map toFlow :=
  (applySnapshot_idempotent_replace initLM initLM [hRec]).2.2.2.2.2.2.2
    (toFlow hRec) (by decide)

/-! ## Claim C8: attacks never exceed total -/

/-- One state change of the flow aggregator: a pushed event or an applied
history snapshot. -/
inductive AggOp where
  | push (d : PushData)
  | snapshot (recs : List HRecord)

def aggStep (st : LMState) : AggOp → LMState
  | AggOp.push d => applyPush st d
  | AggOp.snapshot recs => applySnapshot recs st

def aggRun (st : LMState) (ops : List AggOp) : LMState :=
  ops.foldl aggStep st

theorem aggStep_invariant (st : LMState) (op : AggOp)
    (h : st.stats.attacks ≤ st.stats.total) :
    (aggStep st op).stats.attacks ≤ (aggStep st op).stats.total := by
  cases op with
  | push d =>
    simp only [aggStep, applyPush]
    split <;> omega
  | snapshot recs =>
    simp only [aggStep, applySnapshot]
    exact List.length_filter_le _ _

/-- C8: after any interleaving of pushes and snapshot applications from
the initial `{total := 0, attacks := 0}` state, `attacks ≤ total`. -/
theorem stats_attacks_le_total (ops : List AggOp) :
    (aggRun initLM ops).stats.attacks ≤ (aggRun initLM ops).stats.total := by
  suffices h : ∀ st : LMState, st.stats.attacks ≤ st.stats.total →
      (aggRun st ops).stats.attacks ≤ (aggRun st ops).stats.total by
    exact h initLM (by simp [initLM])
  induction ops with
  | nil => intro st h; exact h
  | cons op ops ih =>
    intro st h
    exact ih _ (aggStep_invariant st op h)

/-! ## Claim C10: a failed stop changes nothing -/

/-- C10: when the remote stop call rejects, `stopMonitoring` leaves the
monitoring flag, the flow view and the counters untouched — the
optimistic transition to stopped happens only after the call succeeds. -/
theorem stop_failure_preserves_state (env : Env) (st : LMState) (d : String)
    (h : env.stopResp = ApiResult.err d) :
    (stopMonitoring env st).1.isMonitoring = st.isMonitoring ∧
    (stopMonitoring env st).1.flows = st.flows ∧
    (stopMonitoring env st).1.stats = st.stats := by
  simp [stopMonitoring, h]

def envStopFail : Env :=
  { historyResp := ApiResult.ok [], startResp := ApiResult.err "down"
    stopResp := ApiResult.err "boom", setIfaceResp := ApiResult.ok ()
    healthResp := ApiResult.err "down" }

theorem stop_failure_preserves_state_witness :
    (stopMonitoring envStopFail initLM).1.isMonitoring =
        initLM.isMonitoring ∧
      (stopMonitoring envStopFail initLM).1.flows = initLM.flows ∧
      (stopMonitoring envStopFail initLM).1.stats = initLM.stats :=
  stop_failure_preserves_state envStopFail initLM "boom" rfl

/-! ## Control orchestrator helper lemmas -/

/-- The running flag the `/health` poll reports (`false` when the poll
fails, as `checkSnifferStatus` then returns `false`). -/
def pollRunning (env : Env) : Bool :=
  match env.healthResp with
  | ApiResult.ok h => h.sniffer_running
  | ApiResult.err _ => false

theorem refreshStats_isMonitoring (env : Env) (st : LMState) :
    (refreshStats env st).1.isMonitoring = st.isMonitoring := by
  cases h : env.historyResp <;> simp [refreshStats, h, applySnapshot]

theorem refreshStats_alerts (env : Env) (st : LMState) :
    (refreshStats env st).1.alerts = st.alerts := by
  cases h : env.historyResp <;> simp [refreshStats, h, applySnapshot]

theorem refreshStats_acts (env : Env) (st : LMState) :
    (refreshStats env st).2 = [Act.historyFetch] := by
  cases h : env.historyResp <;> simp [refreshStats, h]

theorem checkSniffer_running (env : Env) (st : LMState) :
    (checkSnifferStatus env st).2.1 = pollRunning env := by
  cases h : env.healthResp <;> simp [checkSnifferStatus, pollRunning, h]

theorem checkSniffer_alerts (env : Env) (st : LMState) :
    (checkSnifferStatus env st).1.alerts = st.alerts := by
  cases h : env.healthResp <;> simp [checkSnifferStatus, h]

theorem checkSniffer_acts (env : Env) (st : LMState) :
    (checkSnifferStatus env st).2.2 = [Act.healthPoll] := by
  cases h : env.healthResp <;> simp [checkSnifferStatus, h]

/-- The monitoring flag `startMonitoring` leaves behind, by branch: an
error or an unconfirmed start turns it off; a confirmed `started` turns
it on; otherwise the polled status is mirrored. -/
theorem startMonitoring_isMonitoring (env : Env) (st : LMState) :
    (startMonitoring env st).1.isMonitoring =
      (match env.startResp with
       | ApiResult.err _ => false
       | ApiResult.ok r =>
         if r.status = "started" ∧ pollRunning env = true then true
         else if r.status = "warning" ∨ r.status = "failed" ∨
             pollRunning env = false then false
         else pollRunning env) := by
  cases hs : env.startResp with
  | err d => simp [startMonitoring, hs]
  | ok r =>
    simp only [startMonitoring, hs, checkSniffer_running]
    split_ifs <;> simp [refreshStats_isMonitoring]

/-- Everything `startMonitoring` tells the remote side, filtered to
control actions, is the single start request. -/
theorem controlActs_append (a b : List Act) :
    controlActs (a ++ b) = controlActs a ++ controlActs b := by
  simp [controlActs, List.filter_append]

theorem startMonitoring_controlActs (env : Env) (st : LMState) :
    controlActs (startMonitoring env st).2 = [Act.remoteStart] := by
  cases hs : env.startResp with
  | err d =>
    simp [startMonitoring, hs, controlActs, refreshStats_acts,
      Act.isControl]
  | ok r =>
    simp only [startMonitoring, hs]
    split_ifs <;>
      simp [controlActs, refreshStats_acts, checkSniffer_acts,
        List.filter_append, Act.isControl]

theorem stopMonitoring_acts (env : Env) (st : LMState) :
    (stopMonitoring env st).2 = [Act.remoteStop] := by
  cases h : env.stopResp <;> simp [stopMonitoring, h]

/-- The ways the start operation can fail: the start request rejects, the
response reports `warning`/`failed`, or the follow-up poll says the
sniffer is not running. -/
def startFails (env : Env) : Prop :=
  (∃ d, env.startResp = ApiResult.err d) ∨
    (∃ r, env.startResp = ApiResult.ok r ∧
      (r.status = "warning" ∨ r.status = "failed")) ∨
    pollRunning env = false

theorem startFails_isMonitoring (env : Env) (h : startFails env)
    (st : LMState) :
    (startMonitoring env st).1.isMonitoring = false := by
  rw [startMonitoring_isMonitoring]
  rcases h with ⟨d, hd⟩ | ⟨r, hr, hst⟩ | hp
  · simp [hd]
  · have hne : ¬ r.status = "started" := by
      rcases hst with h1 | h1 <;> simp [h1]
    simp only [hr]
    rw [if_neg (by intro hc; exact hne hc.1), if_pos (by tauto)]
  · cases hs : env.startResp with
    | err d => simp
    | ok r =>
      simp only
      rw [if_neg (by intro hc; rw [hc.2] at hp; cases hp),
        if_pos (Or.inr (Or.inr hp))]

/-! ## Claim C4: start confirms before reporting running -/

/-- The start response, when present, reports the service running. -/
def actionReportsRunning (env : Env) : Prop :=
  ∃ r, env.startResp = ApiResult.ok r ∧
    (r.status = "started" ∨ r.status = "already-running")

/-- The §6 contract: a start response's status is one of
`started | warning | failed | already-running`. -/
def ContractStatus (env : Env) : Prop :=
  ∀ r, env.startResp = ApiResult.ok r →
    r.status = "started" ∨ r.status = "warning" ∨ r.status = "failed" ∨
      r.status = "already-running"

/-- C4: under the response contract, `startMonitoring` ends with
monitoring on only when the action response and the freshly polled
status both say the service is running; and when the action says
`started` but the poll disagrees, monitoring is off and the warning
alert is surfaced. -/
theorem start_confirms_before_running (env : Env) (st : LMState)
    (hc : ContractStatus env) :
    ((startMonitoring env st).1.isMonitoring = true →
        pollRunning env = true ∧ actionReportsRunning env) ∧
    (∀ r, env.startResp = ApiResult.ok r → r.status = "started" →
        pollRunning env = false →
        (startMonitoring env st).1.isMonitoring = false ∧
        (startMonitoring env st).1.alerts =
          st.alerts ++ [startWarnAlert r]) := by
  constructor
  · intro hmon
    rw [startMonitoring_isMonitoring] at hmon
    cases hs : env.startResp with
    | err d => simp [hs] at hmon
    | ok r =>
      simp only [hs] at hmon
      by_cases h1 : r.status = "started" ∧ pollRunning env = true
      · exact ⟨h1.2, r, hs, Or.inl h1.1⟩
      · rw [if_neg h1] at hmon
        by_cases h2 : r.status = "warning" ∨ r.status = "failed" ∨
            pollRunning env = false
        · rw [if_pos h2] at hmon; cases hmon
        · rw [if_neg h2] at hmon
          have hp : pollRunning env = true := hmon
          refine ⟨hp, r, hs, ?_⟩
          rcases hc r hs with h3 | h3 | h3 | h3
          · exact Or.inl h3
          · exact absurd (Or.inl h3) h2
          · exact absurd (Or.inr (Or.inl h3)) h2
          · exact Or.inr h3
  · intro r hr hstat hp
    constructor
    · exact startFails_isMonitoring env (Or.inr (Or.inr hp)) st
    · simp only [startMonitoring, hr, checkSniffer_running]
      rw [if_neg (by intro hcnd; rw [hcnd.2] at hp; cases hp),
        if_pos (Or.inr (Or.inr hp))]
      simp [checkSniffer_alerts, refreshStats_alerts]

def startedResp : StartResp := { status := "started", message := some "ok" }

def envC4 : Env :=
  { historyResp := ApiResult.ok []
    startResp := ApiResult.ok startedResp
    stopResp := ApiResult.ok ()
    setIfaceResp := ApiResult.ok ()
    healthResp := ApiResult.ok
      { sniffer_running := false, iface := some "eth0"
        available_interfaces := ["eth0"], interface_exists := true
        active_flows := 0
        sniffer_stats :=
          { packet_count := 0, processed_count := 0, last_error := none } } }

theorem start_confirms_before_running_witness :
    (startMonitoring envC4 initLM).1.isMonitoring = false ∧
      (startMonitoring envC4 initLM).1.alerts =
        initLM.alerts ++ [startWarnAlert startedResp] :=
  (start_confirms_before_running envC4 initLM
      (by
        intro r hr
        rw [show envC4.startResp = ApiResult.ok startedResp from rfl] at hr
        cases hr
        exact Or.inl rfl)).2
    startedResp rfl rfl rfl

/-! ## Claim C5: interface-change sequencing -/

/-- C5: `changeInterface` on the current name issues no actions and
changes nothing; on a fresh name while monitoring it issues the stop
request, then the interface change, then — when the interface change
succeeded — the start request, in that order; and when that start fails
the final state is not monitoring. -/
theorem changeInterface_sequencing (env : Env) (st : LMState)
    (name : String) :
    (name = st.selectedInterface → changeInterface env st name = (st, [])) ∧
    (name ≠ "" → name ≠ st.selectedInterface → st.isMonitoring = true →
      controlActs (changeInterface env st name).2 =
          [Act.remoteStop, Act.remoteSetIface name] ++
            (match env.setIfaceResp with
             | ApiResult.ok _ => [Act.remoteStart]
             | ApiResult.err _ => []) ∧
        ((∃ u, env.setIfaceResp = ApiResult.ok u) → startFails env →
          (changeInterface env st name).1.isMonitoring = false)) := by
  constructor
  · intro h
    simp [changeInterface, h]
  · intro hne hne2 hmon
    have hguard : ¬ (name = "" ∨ name = st.selectedInterface) := by
      intro h
      rcases h with h | h
      · exact hne h
      · exact hne2 h
    cases hsi : env.setIfaceResp with
    | err d =>
      constructor
      · simp only [changeInterface, hmon]
        rw [if_neg hguard]
        simp [hsi, controlActs_append, stopMonitoring_acts, controlActs,
          Act.isControl]
      · intro hu
        rcases hu with ⟨u, hu⟩
        simp at hu
    | ok u =>
      have hca : ∀ st2 : LMState,
          controlActs ((stopMonitoring env st).2 ++
              ([Act.remoteSetIface name] ++ (startMonitoring env st2).2)) =
            [Act.remoteStop, Act.remoteSetIface name, Act.remoteStart] := by
        intro st2
        rw [controlActs_append, controlActs_append, stopMonitoring_acts,
          startMonitoring_controlActs]
        rfl
      constructor
      · simp only [changeInterface, hmon]
        rw [if_neg hguard]
        simp only [hsi, ite_true, List.append_assoc]
        exact hca _
      · intro _ hfail
        simp only [changeInterface, hmon]
        rw [if_neg hguard]
        simp [hsi, startFails_isMonitoring env hfail]

def envC5 : Env :=
  { historyResp := ApiResult.err "down"
    startResp := ApiResult.err "denied"
    stopResp := ApiResult.ok ()
    setIfaceResp := ApiResult.ok ()
    healthResp := ApiResult.err "down" }

def stC5 : LMState :=
  { initLM with isMonitoring := true, selectedInterface := "eth0" }

theorem changeInterface_sequencing_witness :
    controlActs (changeInterface envC5 stC5 "eth1").2 =
        [Act.remoteStop, Act.remoteSetIface "eth1", Act.remoteStart] ∧
      (changeInterface envC5 stC5 "eth1").1.isMonitoring = false := by
  have h := (changeInterface_sequencing envC5 stC5 "eth1").2
    (by decide) (by decide) rfl
  exact ⟨h.1, h.2 ⟨(), rfl⟩ (Or.inl ⟨"denied", rfl⟩)⟩

/-! ## Claim C1: serialization of control operations

The control operations contain no lock, flag or queue: each is a plain
async function.  An invocation is a sequence of atomic segments separated
by its `await` points; the event loop may run segments of two concurrent
invocations in any merge order.  A segment is the state change it applies
plus the requests it issues.  `stopMonitoring` splits into the segment
issuing the remote stop request (up to its `await`) and the resumption
that flips the monitoring flag off (on success).  A merge of two tagged
invocations is any interleaving the event loop can produce — e.g. two
button clicks each run to their first `await`, then the two responses
arrive. -/

/-- One atomic segment: the state change it applies and the requests it
issues. -/
def OpStep : Type := (LMState → LMState) × List Act

/-- `stopMonitoring` up to `await api.post('/health/sniffer/stop')`. -/
def stopStep1 : OpStep := (fun st => st, [Act.remoteStop])

/-- `stopMonitoring` after a successful stop response:
`setIsMonitoring(false)`. -/
def stopStep2 : OpStep := (fun st => { st with isMonitoring := false }, [])

/-- The segments of one (successful) `stopMonitoring` invocation. -/
def stopSegs : List OpStep := [stopStep1, stopStep2]

/-- A segment tagged with which invocation it belongs to. -/
def TStep : Type := Bool × OpStep

def tagOp (b : Bool) (l : List OpStep) : List TStep :=
  l.map (fun s => (b, s))

/-- `Merge as bs cs`: `cs` is an order-preserving interleaving of `as`
and `bs`. -/
inductive Merge {α : Type} : List α → List α → List α → Prop where
  | nil : Merge [] [] []
  | left : ∀ {a : α} {as bs cs}, Merge as bs cs → Merge (a :: as) bs (a :: cs)
  | right : ∀ {b : α} {as bs cs}, Merge as bs cs → Merge as (b :: bs) (b :: cs)

/-- The requests a run of segments issues, in order. -/
def execTrace : List TStep → List Act
  | [] => []
  | t :: ts => t.2.2 ++ execTrace ts

/-- The state a run of segments ends in. -/
def execState (st : LMState) (m : List TStep) : LMState :=
  m.foldl (fun s t => t.2.1 s) st

/-- The tag sequence keeps the two invocations separate: one runs to
completion before the other starts. -/
def SerialTags (ts : List Bool) : Prop :=
  ts = ts.filter (fun b => !b) ++ ts.filter (fun b => b) ∨
    ts = ts.filter (fun b => b) ++ ts.filter (fun b => !b)

/-- The claim, instantiated at two concurrent `stopMonitoring`
invocations: in every interleaving the second invocation is rejected
(at most one stop request reaches the remote side) and the two are never
interleaved. -/
def OpLockClaim : Prop :=
  ∀ m : List TStep, Merge (tagOp false stopSegs) (tagOp true stopSegs) m →
    (execTrace m).count Act.remoteStop ≤ 1 ∧ SerialTags (m.map Prod.fst)

/-- The alternating schedule: each click runs to its `await`, then the
two stop responses resolve in arrival order. -/
def mAlt : List TStep :=
  [(false, stopStep1), (true, stopStep1), (false, stopStep2),
    (true, stopStep2)]

/-- C1 counterexample: the alternating schedule is a legal interleaving
of two `stopMonitoring` invocations, both issue their remote stop
request (the second is not rejected), and their segments interleave —
there is no operation lock. -/
theorem ops_not_serialized : ¬ OpLockClaim := by
  intro h
  have hm : Merge (tagOp false stopSegs) (tagOp true stopSegs) mAlt := by
    show Merge [(false, stopStep1), (false, stopStep2)]
      [(true, stopStep1), (true, stopStep2)]
      [(false, stopStep1), (true, stopStep1), (false, stopStep2),
        (true, stopStep2)]
    exact Merge.left (Merge.right (Merge.left (Merge.right Merge.nil)))
  have h2 := (h mAlt hm).1
  have hc : (execTrace mAlt).count Act.remoteStop = 2 := by
    simp [mAlt, execTrace, stopStep1, stopStep2]
  rw [hc] at h2
  omega

theorem merge_trace_count (p : Act) :
    ∀ {as bs cs : List TStep}, Merge as bs cs →
      (execTrace cs).count p = (execTrace as).count p +
        (execTrace bs).count p := by
  intro as bs cs h
  induction h with
  | nil => rfl
  | left h ih => simp only [execTrace, List.count_append, ih]; omega
  | right h ih => simp only [execTrace, List.count_append, ih]; omega

/-- C1 (amended): there is no operation lock; a second control operation
invoked while one is in flight is not rejected — in every interleaving
of two concurrent `stopMonitoring` invocations both stop requests are
issued to the remote side, including schedules in which the two
invocations' segments alternate. -/
theorem no_lock_both_ops_execute (m : List TStep)
    (h : Merge (tagOp false stopSegs) (tagOp true stopSegs) m) :
    (execTrace m).count Act.remoteStop = 2 := by
  rw [merge_trace_count Act.remoteStop h]
  rfl

/-- The serial schedule: the first stop completes before the second
starts — even there both requests are issued. -/
def mSer : List TStep :=
  [(false, stopStep1), (false, stopStep2), (true, stopStep1),
    (true, stopStep2)]

theorem no_lock_both_ops_execute_witness :
    (execTrace mSer).count Act.remoteStop = 2 :=
  no_lock_both_ops_execute mSer
    (by
      show Merge [(false, stopStep1), (false, stopStep2)]
        [(true, stopStep1), (true, stopStep2)]
        [(false, stopStep1), (false, stopStep2), (true, stopStep1),
          (true, stopStep2)]
      exact Merge.left (Merge.left (Merge.right (Merge.right Merge.nil))))

end IDS
